import Mathlib

/-!
Verification development for the `architect-blueprint` repository.

The repository drives a fixed five-stage blueprint-generation pipeline
(Requirements, Database, API, Frontend, Deployment).  This file gives a
shallow embedding of the pipeline logic itself — the detail-level
configuration tables (`src/config/detail_levels.py`), the input validation
(`src/models/input_models.py`), the streaming progress handler
(`src/services/streaming_handler.py`), the diagram assembler
(`src/services/diagram_builder.py`) and the pipeline coordinator
(`src/services/blueprint_generator.py`) — and proves the specified
properties about it.  The external model calls are modelled as an
environment supplying the result of each stage (success value or failure
message); everything else is translated from the source.
-/

namespace ArchitectBlueprint

/-! ## Configuration: `src/config/detail_levels.py` -/

/-- A leaf value of the configuration dictionary of one component
(the Python dicts hold strings, ints and booleans). -/
inductive ConfigVal where
  | s (v : String)
  | n (v : Nat)
  | b (v : Bool)
deriving DecidableEq

/-- An entry of the dictionary of one detail tier: the key "description" maps to
a plain string, the component keys map to sub-dictionaries. -/
inductive TierEntry where
  | str (v : String)
  | comp (v : List (String × ConfigVal))
deriving DecidableEq

/-- The `DETAIL_LEVEL_CONFIGS` from `src/config/detail_levels.py`, transcribed
verbatim: a dictionary from tier name to a dictionary of entries. -/
def DETAIL_LEVEL_CONFIGS : List (String × List (String × TierEntry)) :=
  [ ("high_level",
      [ ("description", .str "High-level overview with key components"),
        ("database", .comp
          [ ("max_tables", .n 10),
            ("include_indexes", .b false),
            ("include_constraints", .s "primary_key_only"),
            ("field_descriptions", .s "brief") ]),
        ("api", .comp
          [ ("max_endpoints", .n 10),
            ("include_request_body_schema", .b false),
            ("include_error_responses", .b false),
            ("include_parameters", .s "path_only") ]),
        ("frontend", .comp
          [ ("max_components", .n 8),
            ("component_detail", .s "high_level"),
            ("include_props", .b false),
            ("include_state", .b false),
            ("include_dependencies", .b false) ]),
        ("deployment", .comp
          [ ("detail", .s "minimal"),
            ("include_cost_estimate", .b false),
            ("include_security_measures", .s "basic"),
            ("include_monitoring", .s "basic") ]) ]),
    ("detailed",
      [ ("description", .str "Detailed specification with comprehensive information"),
        ("database", .comp
          [ ("max_tables", .n 20),
            ("include_indexes", .b true),
            ("include_constraints", .s "all"),
            ("field_descriptions", .s "detailed") ]),
        ("api", .comp
          [ ("max_endpoints", .n 30),
            ("include_request_body_schema", .b true),
            ("include_error_responses", .b true),
            ("include_parameters", .s "all") ]),
        ("frontend", .comp
          [ ("max_components", .n 20),
            ("component_detail", .s "detailed"),
            ("include_props", .b true),
            ("include_state", .b true),
            ("include_dependencies", .b true) ]),
        ("deployment", .comp
          [ ("detail", .s "detailed"),
            ("include_cost_estimate", .b true),
            ("include_security_measures", .s "comprehensive"),
            ("include_monitoring", .s "detailed") ]) ]),
    ("production_ready",
      [ ("description", .str "Production-ready with security, monitoring, and scalability"),
        ("database", .comp
          [ ("max_tables", .n 30),
            ("include_indexes", .b true),
            ("include_constraints", .s "all"),
            ("field_descriptions", .s "comprehensive"),
            ("include_partitioning", .b true),
            ("include_replication", .b true) ]),
        ("api", .comp
          [ ("max_endpoints", .n 50),
            ("include_request_body_schema", .b true),
            ("include_error_responses", .b true),
            ("include_parameters", .s "all"),
            ("include_rate_limiting", .b true),
            ("include_caching_strategy", .b true),
            ("include_versioning", .b true) ]),
        ("frontend", .comp
          [ ("max_components", .n 35),
            ("component_detail", .s "comprehensive"),
            ("include_props", .b true),
            ("include_state", .b true),
            ("include_dependencies", .b true),
            ("include_performance_optimization", .b true),
            ("include_error_boundaries", .b true),
            ("include_testing_strategy", .b true) ]),
        ("deployment", .comp
          [ ("detail", .s "production_grade"),
            ("include_cost_estimate", .b true),
            ("include_security_measures", .s "enterprise"),
            ("include_monitoring", .s "comprehensive"),
            ("include_disaster_recovery", .b true),
            ("include_compliance", .b true),
            ("include_scalability_plan", .b true),
            ("include_ci_cd_pipeline", .b true) ]) ]) ]

/-- The Python `ValueError` message of `get_detail_config`; the formatted
`list(DETAIL_LEVEL_CONFIGS.keys())` is
a bracketed quoted list of high_level, detailed and production_ready
(apostrophes escaped in the string below). -/
def unknownTierMsg (detail_level : String) : String :=
  "Unknown detail level: " ++ detail_level ++
    ". Must be one of [\x27high_level\x27, \x27detailed\x27, \x27production_ready\x27]"

/-- The `get_detail_config` from `src/config/detail_levels.py`: dictionary lookup,
raising (modelled as `Except.error`) when the tier name is unknown. -/
def get_detail_config (detail_level : String) :
    Except String (List (String × TierEntry)) :=
  match DETAIL_LEVEL_CONFIGS.lookup detail_level with
  | some config => .ok config
  | none => .error (unknownTierMsg detail_level)

/-- The Python `ValueError` message of `get_component_config`; for every tier
the formatted `list(config.keys())` is
a bracketed quoted list of description, database, api, frontend and
deployment (apostrophes escaped in the string below). -/
def unknownComponentMsg (component : String) : String :=
  "Unknown component: " ++ component ++
    ". Must be one of [\x27description\x27, \x27database\x27, \x27api\x27, \x27frontend\x27, \x27deployment\x27]"

/-- The `get_component_config` from `src/config/detail_levels.py`:
resolves the tier, then looks the component key up in the tier dictionary. -/
def get_component_config (detail_level component : String) :
    Except String TierEntry :=
  match get_detail_config detail_level with
  | .error e => .error e
  | .ok config =>
      match config.lookup component with
      | some v => .ok v
      | none => .error (unknownComponentMsg component)

/-- Boolean success test for `Except` (mirrors "no exception raised"). -/
def exceptOk {ε α : Type} : Except ε α → Bool
  | .ok _ => true
  | .error _ => false

/-- The valid detail tiers (the keys of `DETAIL_LEVEL_CONFIGS`). -/
def validTiers : List String := DETAIL_LEVEL_CONFIGS.map Prod.fst

/-- The key names of the five pipeline stages (spec glossary: Requirements,
Database, API, Frontend, Deployment), as dictionary keys. -/
def fiveStageKeys : List String :=
  ["requirements", "database", "api", "frontend", "deployment"]

/-- The four component keys that actually have sub-configurations in
`DETAIL_LEVEL_CONFIGS`. -/
def componentKeys : List String := ["database", "api", "frontend", "deployment"]

/-- Whether the resolved configuration of `detail_level` has an entry for
key `k`. -/
def hasConfigKey (detail_level k : String) : Bool :=
  match get_detail_config detail_level with
  | .ok config => (config.lookup k).isSome
  | .error _ => false

/-! ## Input models: `src/models/input_models.py` -/

/-- The `DetailLevel` enum. -/
inductive DetailLevel where
  | HIGH_LEVEL
  | DETAILED
  | PRODUCTION_READY
deriving DecidableEq

/-- The string value of a `DetailLevel` member. -/
def DetailLevel.value : DetailLevel → String
  | .HIGH_LEVEL => "high_level"
  | .DETAILED => "detailed"
  | .PRODUCTION_READY => "production_ready"

/-- The `DeploymentPlatform` enum. -/
inductive DeploymentPlatform where
  | AWS | GCP | AZURE | DIGITAL_OCEAN | HEROKU
  | VERCEL | RENDER | RAILWAY | FLY_IO_ | OTHER
deriving DecidableEq

/-- The string value of a `DeploymentPlatform` member. -/
def DeploymentPlatform.value : DeploymentPlatform → String
  | .AWS => "aws"
  | .GCP => "gcp"
  | .AZURE => "azure"
  | .DIGITAL_OCEAN => "digital_ocean"
  | .HEROKU => "heroku"
  | .VERCEL => "vercel"
  | .RENDER => "render"
  | .RAILWAY => "railway"
  | .FLY_IO_ => "fly_io"
  | .OTHER => "other"

/-- The `UserInput` (pydantic model). -/
structure UserInput where
  business_idea : String
  detail_level : DetailLevel
  deployment_platform : DeploymentPlatform
  custom_platform : Option String
deriving DecidableEq

/-- Pydantic validation of `UserInput`: `business_idea` is declared with
`Field(..., min_length=10)`, so construction fails when the idea text has
fewer than 10 characters (pydantic counts characters, as `String.length`
does). -/
def mkUserInput (business_idea : String) (detail_level : DetailLevel)
    (deployment_platform : DeploymentPlatform)
    (custom_platform : Option String) : Except String UserInput :=
  if business_idea.length < 10 then
    .error "String should have at least 10 characters"
  else
    .ok ⟨business_idea, detail_level, deployment_platform, custom_platform⟩

/-! ## Stage result models

`src/models/blueprint_models.py`, `database_models.py`, `api_models.py`,
`frontend_models.py`, `deployment_models.py`.  Only the fields that the
pipeline coordinator, streaming handler and diagram builder actually read
are carried; UI-only fields of the pydantic models are omitted. -/

/-- The `RequirementsAnalysis`. -/
structure RequirementsAnalysis where
  core_features : List String
  user_types : List String
  key_entities : List String
  business_model : String
  complexity_assessment : String
deriving DecidableEq

/-- The `DatabaseTable` (the coordinator reads only `name`). -/
structure DatabaseTable where
  name : String
deriving DecidableEq

/-- The `DatabaseSchema`. -/
structure DatabaseSchema where
  tables : List DatabaseTable
  reasoning : String
  mermaid_diagram : String
deriving DecidableEq

/-- The `HTTPMethod` enum. -/
inductive HTTPMethod where
  | GET | POST | PUT | PATCH | DELETE
deriving DecidableEq

/-- The string value of an `HTTPMethod` member. -/
def HTTPMethod.value : HTTPMethod → String
  | .GET => "GET"
  | .POST => "POST"
  | .PUT => "PUT"
  | .PATCH => "PATCH"
  | .DELETE => "DELETE"

/-- The `APIEndpoint` (the coordinator reads `method` and `path`). -/
structure APIEndpoint where
  path : String
  method : HTTPMethod
deriving DecidableEq

/-- The `APIDesign`. -/
structure APIDesign where
  base_url : String
  endpoints : List APIEndpoint
  authentication_strategy : String
  reasoning : String
  mermaid_diagram : String
deriving DecidableEq

/-- The `StateManagement` enum. -/
inductive StateManagement where
  | LOCAL | CONTEXT | GLOBAL_STORE | SERVER | PROPS
deriving DecidableEq

/-- The string value of a `StateManagement` member. -/
def StateManagement.value : StateManagement → String
  | .LOCAL => "local"
  | .CONTEXT => "context"
  | .GLOBAL_STORE => "global_store"
  | .SERVER => "server"
  | .PROPS => "props"

/-- The `FrontendComponent` (the coordinator reads only `name`). -/
structure FrontendComponent where
  name : String
deriving DecidableEq

/-- The `FrontendDesign`. -/
structure FrontendDesign where
  framework : String
  components : List FrontendComponent
  state_management : StateManagement
  state_management_library : Option String
  styling_approach : String
  reasoning : String
  mermaid_diagram : String
deriving DecidableEq

/-- The `DeploymentPlan`. -/
structure DeploymentPlan where
  platform : String
  database_service : String
  hosting_service : String
  ci_cd_strategy : String
  monitoring_strategy : String
  monitoring_tools : List String
  estimated_monthly_cost : Option String
  reasoning : String
  mermaid_diagram : String
deriving DecidableEq

/-- The `TechnicalBlueprint` (`id` and `created_at`, which are fresh
uuid/clock values, are omitted; `technology_stack_summary` is the Python
dict as an association list). -/
structure TechnicalBlueprint where
  user_input : UserInput
  requirements : RequirementsAnalysis
  database_schema : DatabaseSchema
  api_design : APIDesign
  frontend_design : FrontendDesign
  deployment_plan : DeploymentPlan
  full_architecture_diagram : String
  implementation_recommendations : List String
  next_steps : List String
  estimated_timeline : String
  technology_stack_summary : List (String × String)
deriving DecidableEq

/-! ## Streaming handler: `src/services/streaming_handler.py` -/

/-- The data payload of a streaming update: either the structured
result of one stage or, on the final update, the complete blueprint. -/
inductive Payload where
  | requirements (r : RequirementsAnalysis)
  | database (d : DatabaseSchema)
  | api (a : APIDesign)
  | frontend (f : FrontendDesign)
  | deployment (p : DeploymentPlan)
  | blueprint (b : TechnicalBlueprint)
deriving DecidableEq

/-- The `StreamingUpdate` (the `timestamp` wall-clock field is omitted;
`progress` — a Python float that only ever holds exact multiples of 20 —
is modelled as a rational). -/
structure StreamingUpdate where
  phase : String
  phase_index : Nat
  reasoning : String
  progress : ℚ
  diagram : Option String
  data : Option Payload
  status : String
deriving DecidableEq

instance : Inhabited StreamingUpdate :=
  ⟨⟨"", 0, "", 0, none, none, "in_progress"⟩⟩

/-- Mutable state of `StreamingHandler`. -/
structure StreamingHandler where
  current_phase_index : Nat
  updates : List StreamingUpdate
deriving DecidableEq

/-- The `StreamingHandler.__init__` / the state after `reset`. -/
def StreamingHandler.reset (_h : StreamingHandler) : StreamingHandler :=
  ⟨0, []⟩

/-- The `StreamingHandler.PHASES`. -/
def PHASES : List String :=
  [ "Requirements Analysis",
    "Database Schema",
    "API Design",
    "Frontend Architecture",
    "Deployment Plan" ]

/-- ASCII lowercase of a string (Python `str.lower` on the ASCII phase
names used here). -/
def lowerStr (s : String) : String :=
  String.mk (s.toList.map Char.toLower)

/-- Python `needle in haystack` substring containment on character lists. -/
def containsSub (needle : List Char) : List Char → Bool
  | [] => needle.isEmpty
  | c :: t => needle.isPrefixOf (c :: t) || containsSub needle t

/-- The loop condition of `create_update`:
`phase_name.lower() in phase.lower()`. -/
def phase_matches (phase_name phase : String) : Bool :=
  containsSub (lowerStr phase_name).toList (lowerStr phase).toList

/-- The phase-inference loop of `create_update`: index of the first entry of
`PHASES` whose lowercased name is a substring of the lowercased `phase`
argument, or `none` when no entry matches. -/
def find_phase_index (phase : String) : Option Nat :=
  PHASES.findIdx? (fun phase_name => phase_matches phase_name phase)

/-- The `StreamingHandler.create_update`: infers the phase index (leaving
`phase_index = 0` and the current stage unchanged when no stage name
matches), computes progress from the — possibly updated — current stage
index, appends the update to the record and returns it. -/
def create_update (h : StreamingHandler) (phase reasoning : String)
    (diagram : Option String := none) (data : Option Payload := none)
    (status : String := "in_progress") :
    StreamingUpdate × StreamingHandler :=
  let found := find_phase_index phase
  let phase_index := found.getD 0
  let current := found.getD h.current_phase_index
  let progress : ℚ :=
    if status = "completed" then
      (((current : ℚ) + 1) / (PHASES.length : ℚ)) * 100
    else
      ((current : ℚ) / (PHASES.length : ℚ)) * 100
  let update : StreamingUpdate :=
    ⟨phase, phase_index, reasoning, progress, diagram, data, status⟩
  (update, ⟨current, h.updates ++ [update]⟩)

/-- The `StreamingHandler.get_progress_percentage`. -/
def get_progress_percentage (h : StreamingHandler) : ℚ :=
  ((h.current_phase_index : ℚ) / (PHASES.length : ℚ)) * 100

/-- The `StreamingHandler.get_phase_status`. -/
def get_phase_status (h : StreamingHandler) (phase_index : Nat) : String :=
  if phase_index < h.current_phase_index then "completed"
  else if phase_index = h.current_phase_index then "in_progress"
  else "pending"

/-! ## Providers and generator: `src/config/model_providers.py`,
`src/services/blueprint_generator.py` -/

/-- The `ProviderType` enum. -/
inductive ProviderType where
  | OPENAI | DEEPSEEK | KIMI | GROQ
deriving DecidableEq

/-- The string value of a `ProviderType` member. -/
def ProviderType.value : ProviderType → String
  | .OPENAI => "openai"
  | .DEEPSEEK => "deepseek"
  | .KIMI => "kimi"
  | .GROQ => "groq"

/-- ASCII uppercase of a string (Python `str.upper`). -/
def upperStr (s : String) : String :=
  String.mk (s.toList.map Char.toUpper)

/-- Python `x or default` for an optional string: `None` and the empty
string are both falsy. -/
def pyOr (x : Option String) (default : String) : String :=
  match x with
  | some v => if v = "" then default else v
  | none => default

/-- Python comma-space join of a list of strings. -/
def joinComma (xs : List String) : String :=
  String.intercalate ", " xs

/-- The `requirements_text` f-string of `generate_blueprint_stream`. -/
def requirements_text (r : RequirementsAnalysis) : String :=
  "\n**Core Features**: " ++ joinComma r.core_features ++
  "\n\n**User Types**: " ++ joinComma r.user_types ++
  "\n\n**Key Entities**: " ++ joinComma r.key_entities ++
  "\n\n**Business Model**: " ++ r.business_model ++
  "\n\n**Complexity**: " ++ r.complexity_assessment ++ "\n"

/-- The `db_summary` f-string. -/
def db_summary (d : DatabaseSchema) : String :=
  "\n**Tables**: " ++ toString d.tables.length ++
  "\n\n**Key Tables**: " ++ joinComma ((d.tables.take 5).map (·.name)) ++
  "\n\n**Design Rationale**: " ++ d.reasoning ++ "\n"

/-- The `api_summary` f-string. -/
def api_summary (a : APIDesign) : String :=
  "\n**Base URL**: " ++ a.base_url ++
  "\n\n**Endpoints**: " ++ toString a.endpoints.length ++
  "\n\n**Authentication**: " ++ a.authentication_strategy ++
  "\n\n**Key Endpoints**: " ++
    joinComma ((a.endpoints.take 5).map (fun e => e.method.value ++ " " ++ e.path)) ++
  "\n\n**Design Rationale**: " ++ a.reasoning ++ "\n"

/-- The `frontend_summary` f-string. -/
def frontend_summary (f : FrontendDesign) : String :=
  "\n**Framework**: " ++ f.framework ++
  "\n\n**Components**: " ++ toString f.components.length ++
  "\n\n**State Management**: " ++ f.state_management.value ++
    " (" ++ pyOr f.state_management_library "built-in" ++ ")" ++
  "\n\n**Styling**: " ++ f.styling_approach ++
  "\n\n**Key Components**: " ++ joinComma ((f.components.take 5).map (·.name)) ++
  "\n\n**Design Rationale**: " ++ f.reasoning ++ "\n"

/-- The `deployment_summary` f-string. -/
def deployment_summary (p : DeploymentPlan) : String :=
  "\n**Platform**: " ++ p.platform ++
  "\n\n**Database Service**: " ++ p.database_service ++
  "\n\n**Hosting Service**: " ++ p.hosting_service ++
  "\n\n**CI/CD**: " ++ p.ci_cd_strategy ++
  "\n\n**Monitoring**: " ++ p.monitoring_strategy ++
  "\n\n**Estimated Cost**: " ++ pyOr p.estimated_monthly_cost "TBD" ++
  "\n\n**Design Rationale**: " ++ p.reasoning ++ "\n"

/-- The error-update reasoning f-string of `generate_blueprint_stream`. -/
def error_reasoning (provider : ProviderType) (cause : String) : String :=
  "An error occurred with " ++ upperStr provider.value ++
    " provider: " ++ cause

/-- The `timelines` dictionary of `BlueprintGenerator._estimate_timeline`. -/
def timelines : List (String × String) :=
  [ ("low", "6-8 weeks for MVP"),
    ("medium", "3-4 months for MVP"),
    ("high", "4-6 months for MVP") ]

/-- The `BlueprintGenerator._estimate_timeline`:
`timelines.get(complexity.lower(), "3-4 months for MVP")`. -/
def estimate_timeline (complexity : String) : String :=
  (timelines.lookup (lowerStr complexity)).getD "3-4 months for MVP"

/-- The `DiagramBuilder.build_full_architecture_diagram`: the Mermaid template
with the format placeholders substituted. -/
def build_full_architecture_diagram (blueprint : TechnicalBlueprint) : String :=
  "graph TB\n    subgraph \"Frontend Layer\"\n        FE[\"" ++
    blueprint.frontend_design.framework ++
  "\"]\n        FE_STATE[\"" ++
    blueprint.frontend_design.state_management.value ++
  "\"]\n    end\n\n    subgraph \"API Layer\"\n        API[\"" ++
    blueprint.api_design.base_url ++
  "\"]\n        AUTH[\"" ++
    (blueprint.api_design.authentication_strategy.take 30 ++ "...") ++
  "\"]\n    end\n\n    subgraph \"Data Layer\"\n        DB[\"" ++
    (toString blueprint.database_schema.tables.length ++ " tables") ++
  "\"]\n    end\n\n    subgraph \"Infrastructure\"\n        DEPLOY[\"" ++
    upperStr blueprint.deployment_plan.platform ++
  "\"]\n        MONITOR[\"" ++
    (blueprint.deployment_plan.monitoring_strategy.take 30 ++ "...") ++
  "\"]\n    end\n\n    FE --> API\n    FE_STATE -.manages.-> FE\n" ++
  "    API --> AUTH\n    API --> DB\n    DEPLOY -.hosts.-> API\n" ++
  "    DEPLOY -.hosts.-> FE\n    DEPLOY -.hosts.-> DB\n" ++
  "    MONITOR -.observes.-> API\n    MONITOR -.observes.-> DB\n\n" ++
  "    style FE fill:#e1f5ff\n    style API fill:#fff3e0\n" ++
  "    style DB fill:#f3e5f5\n    style DEPLOY fill:#e8f5e9\n"

/-- The static `implementation_recommendations` list. -/
def implementation_recommendations_static : List String :=
  [ "Start with MVP features to validate core functionality",
    "Implement authentication and user management first",
    "Set up CI/CD pipeline early in the development process",
    "Use feature flags for gradual rollout of new features",
    "Implement comprehensive logging and monitoring from day one" ]

/-- The static `next_steps` list. -/
def next_steps_static : List String :=
  [ "Set up development environment and version control",
    "Initialize project with chosen technology stack",
    "Implement database schema and migrations",
    "Build authentication system",
    "Develop core API endpoints",
    "Create basic frontend components",
    "Set up deployment pipeline",
    "Configure monitoring and logging" ]

/-- The `technology_stack_summary` dict built by the coordinator. -/
def technology_stack_summary_of (f : FrontendDesign) (p : DeploymentPlan) :
    List (String × String) :=
  [ ("frontend", f.framework),
    ("backend", "Node.js/Python (to be determined)"),
    ("database", p.database_service),
    ("hosting", p.platform),
    ("monitoring",
      if p.monitoring_tools.isEmpty then "TBD"
      else joinComma (p.monitoring_tools.take 2)) ]

/-- The `TechnicalBlueprint` construction at the end of
`generate_blueprint_stream`: a temporary blueprint (with an empty
architecture diagram) is built first and fed to the diagram builder. -/
def build_blueprint (ui : UserInput) (r : RequirementsAnalysis)
    (d : DatabaseSchema) (a : APIDesign) (f : FrontendDesign)
    (p : DeploymentPlan) : TechnicalBlueprint :=
  let temp : TechnicalBlueprint :=
    { user_input := ui
      requirements := r
      database_schema := d
      api_design := a
      frontend_design := f
      deployment_plan := p
      full_architecture_diagram := ""
      implementation_recommendations := implementation_recommendations_static
      next_steps := next_steps_static
      estimated_timeline := estimate_timeline r.complexity_assessment
      technology_stack_summary := technology_stack_summary_of f p }
  { temp with full_architecture_diagram := build_full_architecture_diagram temp }

/-- The `BlueprintGenerator` (provider, optional model name, and the mutable
streaming handler it owns). -/
structure BlueprintGenerator where
  provider : ProviderType
  model_name : Option String
  streaming_handler : StreamingHandler

/-- The environment of external model calls: for each stage, the outcome of
`await agent.run(prompt)` — a structured result or a raised error (its
`str(e)` message). -/
structure StageEnv where
  requirements_result : Except String RequirementsAnalysis
  database_result : Except String DatabaseSchema
  api_result : Except String APIDesign
  frontend_result : Except String FrontendDesign
  deployment_result : Except String DeploymentPlan

/-- The `BlueprintGenerator.generate_blueprint_stream`.  Returns the sequence of
yielded updates, the final handler state, and either the completed
blueprint or the propagated error (the Python generator re-raises after
yielding the error update).  `get_detail_config` runs before the `try`
block, so its failure yields no updates; every failure inside the `try`
block yields exactly one error update and stops. -/
def generate_blueprint_stream (g : BlueprintGenerator) (env : StageEnv)
    (user_input : UserInput) :
    List StreamingUpdate × StreamingHandler × Except String TechnicalBlueprint :=
  let h0 := g.streaming_handler.reset
  let detail_level := user_input.detail_level.value
  match get_detail_config detail_level with
  | .error e => ([], h0, .error e)
  | .ok _detail_config =>
    -- Phase 1: Requirements Analysis
    let p1 := create_update h0 "Requirements Analysis"
      ("Analyzing your business idea with " ++ upperStr g.provider.value ++ "...")
      none none "in_progress"
    match env.requirements_result with
    | .error e =>
        let pe := create_update p1.2 "Error" (error_reasoning g.provider e)
          none none "error"
        ([p1.1, pe.1], pe.2, .error e)
    | .ok requirements =>
    let p2 := create_update p1.2 "Requirements Analysis"
      (requirements_text requirements) none (some (.requirements requirements))
      "completed"
    -- Phase 2: Database Schema
    let p3 := create_update p2.2 "Database Schema"
      "Designing a normalized database schema with tables, relationships, and indexes..."
      none none "in_progress"
    match get_component_config detail_level "database" with
    | .error e =>
        let pe := create_update p3.2 "Error" (error_reasoning g.provider e)
          none none "error"
        ([p1.1, p2.1, p3.1, pe.1], pe.2, .error e)
    | .ok _db_config =>
    match env.database_result with
    | .error e =>
        let pe := create_update p3.2 "Error" (error_reasoning g.provider e)
          none none "error"
        ([p1.1, p2.1, p3.1, pe.1], pe.2, .error e)
    | .ok database_schema =>
    let p4 := create_update p3.2 "Database Schema" (db_summary database_schema)
      (some database_schema.mermaid_diagram) (some (.database database_schema))
      "completed"
    -- Phase 3: API Design
    let p5 := create_update p4.2 "API Design"
      "Creating RESTful API endpoints based on the database schema and business requirements..."
      none none "in_progress"
    match get_component_config detail_level "api" with
    | .error e =>
        let pe := create_update p5.2 "Error" (error_reasoning g.provider e)
          none none "error"
        ([p1.1, p2.1, p3.1, p4.1, p5.1, pe.1], pe.2, .error e)
    | .ok _api_config =>
    match env.api_result with
    | .error e =>
        let pe := create_update p5.2 "Error" (error_reasoning g.provider e)
          none none "error"
        ([p1.1, p2.1, p3.1, p4.1, p5.1, pe.1], pe.2, .error e)
    | .ok api_design =>
    let p6 := create_update p5.2 "API Design" (api_summary api_design)
      (some api_design.mermaid_diagram) (some (.api api_design)) "completed"
    -- Phase 4: Frontend Architecture
    let p7 := create_update p6.2 "Frontend Architecture"
      "Designing frontend component hierarchy and state management strategy..."
      none none "in_progress"
    match get_component_config detail_level "frontend" with
    | .error e =>
        let pe := create_update p7.2 "Error" (error_reasoning g.provider e)
          none none "error"
        ([p1.1, p2.1, p3.1, p4.1, p5.1, p6.1, p7.1, pe.1], pe.2, .error e)
    | .ok _frontend_config =>
    match env.frontend_result with
    | .error e =>
        let pe := create_update p7.2 "Error" (error_reasoning g.provider e)
          none none "error"
        ([p1.1, p2.1, p3.1, p4.1, p5.1, p6.1, p7.1, pe.1], pe.2, .error e)
    | .ok frontend_design =>
    let p8 := create_update p7.2 "Frontend Architecture"
      (frontend_summary frontend_design) (some frontend_design.mermaid_diagram)
      (some (.frontend frontend_design)) "completed"
    -- Phase 5: Deployment Plan
    let p9 := create_update p8.2 "Deployment Plan"
      ("Creating infrastructure and deployment plan for " ++
        upperStr user_input.deployment_platform.value ++ "...")
      none none "in_progress"
    match get_component_config detail_level "deployment" with
    | .error e =>
        let pe := create_update p9.2 "Error" (error_reasoning g.provider e)
          none none "error"
        ([p1.1, p2.1, p3.1, p4.1, p5.1, p6.1, p7.1, p8.1, p9.1, pe.1],
          pe.2, .error e)
    | .ok _deployment_config =>
    match env.deployment_result with
    | .error e =>
        let pe := create_update p9.2 "Error" (error_reasoning g.provider e)
          none none "error"
        ([p1.1, p2.1, p3.1, p4.1, p5.1, p6.1, p7.1, p8.1, p9.1, pe.1],
          pe.2, .error e)
    | .ok deployment_plan =>
    let p10 := create_update p9.2 "Deployment Plan"
      (deployment_summary deployment_plan)
      (some deployment_plan.mermaid_diagram) (some (.deployment deployment_plan))
      "completed"
    -- Build Complete Blueprint, final update
    let blueprint := build_blueprint user_input requirements database_schema
      api_design frontend_design deployment_plan
    let p11 := create_update p10.2 "Complete"
      "Blueprint generation complete! Your technical architecture is ready."
      none (some (.blueprint blueprint)) "completed"
    ([p1.1, p2.1, p3.1, p4.1, p5.1, p6.1, p7.1, p8.1, p9.1, p10.1, p11.1],
      p11.2, .ok blueprint)

/-- The sequence of updates yielded by one run. -/
def emitted (g : BlueprintGenerator) (env : StageEnv) (ui : UserInput) :
    List StreamingUpdate :=
  (generate_blueprint_stream g env ui).1

/-- The terminal outcome of one run: the completed blueprint or the
propagated error. -/
def runResult (g : BlueprintGenerator) (env : StageEnv) (ui : UserInput) :
    Except String TechnicalBlueprint :=
  (generate_blueprint_stream g env ui).2.2

/-- An environment in which all five stage calls succeed. -/
def okEnv (r : RequirementsAnalysis) (d : DatabaseSchema) (a : APIDesign)
    (f : FrontendDesign) (p : DeploymentPlan) : StageEnv :=
  ⟨.ok r, .ok d, .ok a, .ok f, .ok p⟩

/-- The update sequence of a run in which all five stages succeed. -/
def okRunUpdates (g : BlueprintGenerator) (r : RequirementsAnalysis)
    (d : DatabaseSchema) (a : APIDesign) (f : FrontendDesign)
    (p : DeploymentPlan) (ui : UserInput) : List StreamingUpdate :=
  [ ⟨"Requirements Analysis", 0,
      "Analyzing your business idea with " ++ upperStr g.provider.value ++ "...",
      0, none, none, "in_progress"⟩,
    ⟨"Requirements Analysis", 0, requirements_text r, 20, none,
      some (.requirements r), "completed"⟩,
    ⟨"Database Schema", 1,
      "Designing a normalized database schema with tables, relationships, and indexes...",
      20, none, none, "in_progress"⟩,
    ⟨"Database Schema", 1, db_summary d, 40, some d.mermaid_diagram,
      some (.database d), "completed"⟩,
    ⟨"API Design", 2,
      "Creating RESTful API endpoints based on the database schema and business requirements...",
      40, none, none, "in_progress"⟩,
    ⟨"API Design", 2, api_summary a, 60, some a.mermaid_diagram,
      some (.api a), "completed"⟩,
    ⟨"Frontend Architecture", 3,
      "Designing frontend component hierarchy and state management strategy...",
      60, none, none, "in_progress"⟩,
    ⟨"Frontend Architecture", 3, frontend_summary f, 80, some f.mermaid_diagram,
      some (.frontend f), "completed"⟩,
    ⟨"Deployment Plan", 4,
      "Creating infrastructure and deployment plan for " ++
        upperStr ui.deployment_platform.value ++ "...",
      80, none, none, "in_progress"⟩,
    ⟨"Deployment Plan", 4, deployment_summary p, 100, some p.mermaid_diagram,
      some (.deployment p), "completed"⟩,
    ⟨"Complete", 0,
      "Blueprint generation complete! Your technical architecture is ready.",
      100, none, some (.blueprint (build_blueprint ui r d a f p)), "completed"⟩ ]

/-- The dictionary keys present in the configuration of every tier. -/
def tierConfigKeys : List String :=
  ["description", "database", "api", "frontend", "deployment"]

/-- The run of `generate_blueprint_stream` fails at (1-based) stage `k`
with cause `e`: the stages before `k` succeed and the model call of stage
`k` raises. -/
def failsAt (env : StageEnv) (k : Nat) (e : String) : Prop :=
  match k with
  | 1 => env.requirements_result = .error e
  | 2 => (∃ r, env.requirements_result = .ok r) ∧
      env.database_result = .error e
  | 3 => (∃ r, env.requirements_result = .ok r) ∧
      (∃ d, env.database_result = .ok d) ∧
      env.api_result = .error e
  | 4 => (∃ r, env.requirements_result = .ok r) ∧
      (∃ d, env.database_result = .ok d) ∧
      (∃ a, env.api_result = .ok a) ∧
      env.frontend_result = .error e
  | 5 => (∃ r, env.requirements_result = .ok r) ∧
      (∃ d, env.database_result = .ok d) ∧
      (∃ a, env.api_result = .ok a) ∧
      (∃ f, env.frontend_result = .ok f) ∧
      env.deployment_result = .error e
  | _ => False

/-- A concrete requirements result for witnesses. -/
def sampleRequirements : RequirementsAnalysis :=
  ⟨["Task tracking"], ["Managers"], ["Task"], "subscription", "medium"⟩

/-- A concrete generator for witnesses. -/
def sampleGenerator : BlueprintGenerator := ⟨.OPENAI, none, ⟨0, []⟩⟩

/-- A concrete user input for witnesses. -/
def sampleUserInput : UserInput :=
  ⟨"A project management tool", .DETAILED, .AWS, none⟩

/-- A concrete environment failing at stage 2 (Database Schema) for the
failed-run witness. -/
def sampleEnvFail2 : StageEnv :=
  ⟨.ok sampleRequirements, .error "model timeout", .error "unused",
    .error "unused", .error "unused"⟩

/-! ## Helper lemmas -/

theorem fpi_requirements : find_phase_index "Requirements Analysis" = some 0 := by
  decide

theorem fpi_database : find_phase_index "Database Schema" = some 1 := by decide

theorem fpi_api : find_phase_index "API Design" = some 2 := by decide

theorem fpi_frontend : find_phase_index "Frontend Architecture" = some 3 := by
  decide

theorem fpi_deployment : find_phase_index "Deployment Plan" = some 4 := by decide

theorem fpi_complete : find_phase_index "Complete" = none := by decide

theorem fpi_error : find_phase_index "Error" = none := by decide

theorem PHASES_length : PHASES.length = 5 := rfl

/-- For every `DetailLevel` enum value, tier resolution succeeds. -/
theorem gdc_value (dl : DetailLevel) :
    get_detail_config dl.value =
      .ok ((DETAIL_LEVEL_CONFIGS.lookup dl.value).getD []) := by
  cases dl <;> rfl

/-- For every `DetailLevel` enum value, the `"database"` component resolves. -/
theorem gcc_database (dl : DetailLevel) :
    get_component_config dl.value "database" =
      .ok ((((DETAIL_LEVEL_CONFIGS.lookup dl.value).getD []).lookup
        "database").getD (.str "")) := by
  cases dl <;> rfl

/-- For every `DetailLevel` enum value, the `"api"` component resolves. -/
theorem gcc_api (dl : DetailLevel) :
    get_component_config dl.value "api" =
      .ok ((((DETAIL_LEVEL_CONFIGS.lookup dl.value).getD []).lookup
        "api").getD (.str "")) := by
  cases dl <;> rfl

/-- For every `DetailLevel` enum value, the `"frontend"` component resolves. -/
theorem gcc_frontend (dl : DetailLevel) :
    get_component_config dl.value "frontend" =
      .ok ((((DETAIL_LEVEL_CONFIGS.lookup dl.value).getD []).lookup
        "frontend").getD (.str "")) := by
  cases dl <;> rfl

/-- For every `DetailLevel` enum value, the `"deployment"` component
resolves. -/
theorem gcc_deployment (dl : DetailLevel) :
    get_component_config dl.value "deployment" =
      .ok ((((DETAIL_LEVEL_CONFIGS.lookup dl.value).getD []).lookup
        "deployment").getD (.str "")) := by
  cases dl <;> rfl

/-- Substring containment is preserved by prepending. -/
theorem containsSub_append (n l₂ : List Char) (l₁ : List Char)
    (h : containsSub n l₂ = true) : containsSub n (l₁ ++ l₂) = true := by
  induction l₁ with
  | nil => simpa using h
  | cons c t ih => simp only [List.cons_append, containsSub, Bool.or_eq_true]; right; exact ih


/-- A run in which all five stage calls succeed yields exactly the eleven
updates of `okRunUpdates` and completes with the built blueprint. -/
theorem run_okEnv_eq (g : BlueprintGenerator) (r : RequirementsAnalysis)
    (d : DatabaseSchema) (a : APIDesign) (f : FrontendDesign)
    (p : DeploymentPlan) (ui : UserInput) :
    emitted g (okEnv r d a f p) ui = okRunUpdates g r d a f p ui ∧
    runResult g (okEnv r d a f p) ui = .ok (build_blueprint ui r d a f p) := by
  constructor
  · norm_num [emitted, generate_blueprint_stream, okEnv,
      okRunUpdates, create_update, fpi_requirements, fpi_database, fpi_api,
      fpi_frontend, fpi_deployment, fpi_complete, fpi_error, gdc_value,
      gcc_database, gcc_api, gcc_frontend, gcc_deployment,
      StreamingHandler.reset, PHASES_length]
    decide
  · norm_num [runResult, generate_blueprint_stream, okEnv,
      okRunUpdates, create_update, fpi_requirements, fpi_database, fpi_api,
      fpi_frontend, fpi_deployment, fpi_complete, fpi_error, gdc_value,
      gcc_database, gcc_api, gcc_frontend, gcc_deployment,
      StreamingHandler.reset, PHASES_length]

/-! ## Claim theorems -/

/-- First-match characterization of the phase-inference loop, shared by the
phase-matching claim. -/
theorem find_phase_index_first_match (phase : String) (i : Nat) :
    find_phase_index phase = some i ↔
      (i < PHASES.length ∧ phase_matches (PHASES.getD i "") phase = true ∧
        ∀ j, j < i → phase_matches (PHASES.getD j "") phase = false) := by
  have hget : ∀ (j : Nat) (hj : j < PHASES.length),
      PHASES.getD j "" = PHASES.get ⟨j, hj⟩ := by
    intro j hj
    simp [List.getD_eq_getElem?_getD, List.getElem?_eq_getElem hj]
  rw [find_phase_index, List.findIdx?_eq_some_iff_getElem]
  constructor
  · rintro ⟨h, hp, hj⟩
    refine ⟨h, ?_, ?_⟩
    · rw [hget i h]; exact hp
    · intro j hji
      have hjlt : j < PHASES.length := Nat.lt_trans hji h
      have := hj j hji
      rw [hget j hjlt]
      simpa using this
  · rintro ⟨h, hp, hj⟩
    refine ⟨h, ?_, ?_⟩
    · rw [hget i h] at hp; exact hp
    · intro j hji
      have hjlt : j < PHASES.length := Nat.lt_trans hji h
      have := hj j hji
      rw [hget j hjlt] at this
      simpa using this

/-- C2: in every run in which all five stage calls succeed, exactly 11
updates are emitted — per stage one `in_progress` and one `completed`
update (10), plus exactly one final update with phase "Complete" (and it is
the last) — and the progress values are non-decreasing with the last equal
to 100. -/
theorem successful_run_event_sequence (g : BlueprintGenerator)
    (r : RequirementsAnalysis) (d : DatabaseSchema) (a : APIDesign)
    (f : FrontendDesign) (p : DeploymentPlan) (ui : UserInput) :
    (emitted g (okEnv r d a f p) ui).length = 11 ∧
    (∀ i : Fin 5,
      ((emitted g (okEnv r d a f p) ui).countP
        (fun u => u.phase == PHASES.getD i.val "" && u.status == "in_progress")) = 1 ∧
      ((emitted g (okEnv r d a f p) ui).countP
        (fun u => u.phase == PHASES.getD i.val "" && u.status == "completed")) = 1) ∧
    ((emitted g (okEnv r d a f p) ui).countP (fun u => u.phase == "Complete")) = 1 ∧
    ((emitted g (okEnv r d a f p) ui).getLast?.map (fun u => u.phase) = some "Complete") ∧
    List.Chain' (· ≤ ·) ((emitted g (okEnv r d a f p) ui).map (fun u => u.progress)) ∧
    ((emitted g (okEnv r d a f p) ui).map (fun u => u.progress)).getLast? = some 100 := by
  rw [(run_okEnv_eq g r d a f p ui).1]
  refine ⟨rfl, fun i => ?_, ?_, ?_, ?_, ?_⟩
  · fin_cases i <;>
      constructor <;>
        simp [okRunUpdates, PHASES, List.countP_cons]
  · simp [okRunUpdates, List.countP_cons]
  · simp [okRunUpdates]
  · norm_num [okRunUpdates, List.chain'_cons]
  · simp [okRunUpdates]

/-- C4: in a successful run, the update emitted at the start of 0-based
stage `i` (position `2*i`) is the `in_progress` update of that stage and carries
progress `(i / 5) * 100`, and the update emitted at its completion
(position `2*i + 1`) is the `completed` update of that stage and carries
progress `((i + 1) / 5) * 100`. -/
theorem stage_progress_values (g : BlueprintGenerator)
    (r : RequirementsAnalysis) (d : DatabaseSchema) (a : APIDesign)
    (f : FrontendDesign) (p : DeploymentPlan) (ui : UserInput) (i : Fin 5) :
    (((emitted g (okEnv r d a f p) ui).getD (2 * i.val) default).status = "in_progress" ∧
     ((emitted g (okEnv r d a f p) ui).getD (2 * i.val) default).phase = PHASES.getD i.val "" ∧
     ((emitted g (okEnv r d a f p) ui).getD (2 * i.val) default).progress = ((i.val : ℚ) / 5) * 100) ∧
    (((emitted g (okEnv r d a f p) ui).getD (2 * i.val + 1) default).status = "completed" ∧
     ((emitted g (okEnv r d a f p) ui).getD (2 * i.val + 1) default).phase = PHASES.getD i.val "" ∧
     ((emitted g (okEnv r d a f p) ui).getD (2 * i.val + 1) default).progress = (((i.val : ℚ) + 1) / 5) * 100) := by
  rw [(run_okEnv_eq g r d a f p ui).1]
  fin_cases i <;> norm_num [okRunUpdates, PHASES]

/-- C9: `create_update` assigns as `phase_index` the index of the first of
the five fixed stage names occurring as a case-insensitive substring of the
given phase string (that is what `find_phase_index` computes); when no
stage name matches, the `phase_index` of the update is 0 and the current
stage index of the tracker is left unchanged; neither "Complete" nor "Error"
matches any stage name; hence the final update of a successful run carries
`phase_index` 0 while its progress (100) is computed from the previously
active stage. -/
theorem phase_substring_inference :
    (∀ (h : StreamingHandler) (phase reasoning : String)
        (diagram : Option String) (data : Option Payload) (status : String),
      (create_update h phase reasoning diagram data status).1.phase_index =
        (find_phase_index phase).getD 0 ∧
      (create_update h phase reasoning diagram data status).2.current_phase_index =
        (find_phase_index phase).getD h.current_phase_index) ∧
    (∀ (phase : String) (i : Nat),
      find_phase_index phase = some i ↔
        (i < PHASES.length ∧ phase_matches (PHASES.getD i "") phase = true ∧
          ∀ j, j < i → phase_matches (PHASES.getD j "") phase = false)) ∧
    find_phase_index "Complete" = none ∧
    find_phase_index "Error" = none ∧
    (∀ (g : BlueprintGenerator) (r : RequirementsAnalysis) (d : DatabaseSchema)
        (a : APIDesign) (f : FrontendDesign) (p : DeploymentPlan) (ui : UserInput),
      ((emitted g (okEnv r d a f p) ui).getLast?.map
        (fun u => (u.phase, u.phase_index, u.progress))) =
        some ("Complete", 0, 100)) := by
  refine ⟨fun h phase reasoning diagram data status => ⟨rfl, rfl⟩,
    find_phase_index_first_match, fpi_complete, fpi_error,
    fun g r d a f p ui => ?_⟩
  rw [(run_okEnv_eq g r d a f p ui).1]
  simp [okRunUpdates]

/-- C10: `generate_blueprint_stream` resets the tracker before emitting any
update — after `reset` the current stage index is 0 and the recorded update
list is empty — and the whole outcome of a run (updates, final tracker
state, result) is independent of the tracker state the generator starts
with: no state leaks between runs. -/
theorem tracker_reset_no_leak :
    (∀ h : StreamingHandler,
      h.reset.current_phase_index = 0 ∧ h.reset.updates = []) ∧
    (∀ (provider : ProviderType) (mn : Option String)
        (h₁ h₂ : StreamingHandler) (env : StageEnv) (ui : UserInput),
      generate_blueprint_stream ⟨provider, mn, h₁⟩ env ui =
        generate_blueprint_stream ⟨provider, mn, h₂⟩ env ui) :=
  ⟨fun _ => ⟨rfl, rfl⟩, fun _ _ _ _ _ _ => rfl⟩

/-- C5: the timeline estimator maps complexity label "high" in any letter
case to the "4-6 months" bucket, "low" (any case) to the "6-8 weeks"
bucket, "medium" (any case) to the "3-4 months" bucket, and any
unrecognized label (e.g. "extreme") to the default medium bucket: for
every label the result is determined by its lowercasing via the
three-bucket table, with the medium bucket as default. -/
theorem timeline_mapping :
    (∀ c : String, estimate_timeline c =
      if lowerStr c = "low" then "6-8 weeks for MVP"
      else if lowerStr c = "medium" then "3-4 months for MVP"
      else if lowerStr c = "high" then "4-6 months for MVP"
      else "3-4 months for MVP") ∧
    estimate_timeline "HIGH" = "4-6 months for MVP" ∧
    estimate_timeline "Low" = "6-8 weeks for MVP" ∧
    estimate_timeline "MeDiUm" = "3-4 months for MVP" ∧
    estimate_timeline "extreme" = "3-4 months for MVP" := by
  refine ⟨fun c => ?_, by decide, by decide, by decide, by decide⟩
  by_cases h1 : lowerStr c = "low" <;>
    by_cases h2 : lowerStr c = "medium" <;>
      by_cases h3 : lowerStr c = "high" <;>
        simp_all [estimate_timeline, timelines, List.lookup,
          Bool.beq_eq_decide_eq]

/-- C7: constructing a `UserInput` succeeds exactly when the business idea
has at least 10 characters; in particular a 9-character idea is rejected
(zero stages can run, since the pipeline needs a `UserInput`) and a
10-character idea is accepted. -/
theorem business_idea_boundary :
    (∀ (s : String) (dl : DetailLevel) (dp : DeploymentPlatform)
        (cp : Option String),
      exceptOk (mkUserInput s dl dp cp) = decide (10 ≤ s.length)) ∧
    exceptOk (mkUserInput "123456789" .DETAILED .AWS none) = false ∧
    exceptOk (mkUserInput "1234567890" .DETAILED .AWS none) = true := by
  refine ⟨fun s dl dp cp => ?_, by decide, by decide⟩
  by_cases h : s.length < 10
  · simp only [mkUserInput, if_pos h, exceptOk]
    exact (decide_eq_false (by omega)).symm
  · simp only [mkUserInput, if_neg h, exceptOk]
    exact (decide_eq_true (by omega)).symm

/-- C8: for every tracker state and stage index, `get_phase_status`
classifies the stage as "completed" below the currently active index,
"in_progress" at it, and "pending" above it. -/
theorem phase_status_classification (h : StreamingHandler) (i : Nat) :
    get_phase_status h i =
      match Ord.compare i h.current_phase_index with
      | .lt => "completed"
      | .eq => "in_progress"
      | .gt => "pending" := by
  rcases Nat.lt_trichotomy i h.current_phase_index with hlt | heq | hgt
  · simp [get_phase_status, hlt, compare, compareOfLessAndEq]
  · simp [get_phase_status, heq, compare, compareOfLessAndEq]
  · have h1 : ¬ i < h.current_phase_index := Nat.not_lt.mpr (Nat.le_of_lt hgt)
    have h2 : ¬ i = h.current_phase_index := Nat.ne_of_gt hgt
    simp [get_phase_status, h1, h2, compare, compareOfLessAndEq]


/-- C1 (counterexample): for the valid tier "high_level" resolution
succeeds, but the returned configuration does not contain sub-configurations
for all five pipeline stages — the Requirements stage (key "requirements")
has none; only the other four stages have sub-configurations. -/
theorem detail_config_counterexample :
    "high_level" ∈ validTiers ∧
    exceptOk (get_detail_config "high_level") = true ∧
    "requirements" ∈ fiveStageKeys ∧
    hasConfigKey "high_level" "requirements" = false := by decide

/-- C1 (amended): for every valid detail tier identifier,
`get_detail_config` succeeds and the returned configuration contains the
four stage sub-configurations that exist ("database", "api", "frontend",
"deployment" — the Requirements stage has none); for any other string it
fails with a `ConfigurationError` (`ValueError`) whose message enumerates
the valid tiers. -/
theorem detail_config_resolution (s : String) :
    if s ∈ validTiers then
      (exceptOk (get_detail_config s) = true ∧
        hasConfigKey s "database" = true ∧ hasConfigKey s "api" = true ∧
        hasConfigKey s "frontend" = true ∧ hasConfigKey s "deployment" = true)
    else
      (get_detail_config s = .error (unknownTierMsg s) ∧
        containsSub "high_level".toList (unknownTierMsg s).toList = true ∧
        containsSub "detailed".toList (unknownTierMsg s).toList = true ∧
        containsSub "production_ready".toList (unknownTierMsg s).toList = true) := by
  by_cases hs : s ∈ validTiers
  · rw [if_pos hs]
    have htier : s = "high_level" ∨ s = "detailed" ∨ s = "production_ready" := by
      simpa [validTiers, DETAIL_LEVEL_CONFIGS] using hs
    rcases htier with rfl | rfl | rfl <;> decide
  · rw [if_neg hs]
    have hne : ¬s = "high_level" ∧ ¬s = "detailed" ∧ ¬s = "production_ready" := by
      simpa [validTiers, DETAIL_LEVEL_CONFIGS, not_or] using hs
    obtain ⟨h1, h2, h3⟩ := hne
    have herr : get_detail_config s = .error (unknownTierMsg s) := by
      simp [get_detail_config, DETAIL_LEVEL_CONFIGS, List.lookup,
        Bool.beq_eq_decide_eq, h1, h2, h3]
    refine ⟨herr, ?_, ?_, ?_⟩ <;>
      · show containsSub _ (unknownTierMsg s).toList = true
        have : (unknownTierMsg s).toList =
            ("Unknown detail level: ".data ++ s.data) ++
              (". Must be one of [\x27high_level\x27, \x27detailed\x27, \x27production_ready\x27]" : String).data := by
          simp [unknownTierMsg]
        rw [this]
        exact containsSub_append _ _ _ (by decide)

/-- C6 (counterexample): "description" is not one of the four
stage-configuration keys, yet `get_component_config "high_level"
"description"` does not fail — it returns the description string of the
tier, because the code only checks membership among the keys of the tier
dictionary,
which include "description". -/
theorem component_config_counterexample :
    "high_level" ∈ validTiers ∧
    componentKeys.contains "description" = false ∧
    get_component_config "high_level" "description" =
      .ok (.str "High-level overview with key components") :=
  ⟨by decide, by decide, rfl⟩

/-- C6 (amended): for every valid detail tier, `get_component_config`
fails with a `ConfigurationError` (`ValueError`) exactly for component
names that are not keys of the configuration dictionary of the tier, not
among "description", "database", "api", "frontend", "deployment" — and
succeeds on those five keys; for an invalid tier it fails with the
unknown-tier error.  (Purity — "before any network call" — is inherent:
the function is a lookup with no effects.) -/
theorem component_config_unknown_key (tier c : String) :
    if tier ∈ validTiers then
      (if c ∈ tierConfigKeys then exceptOk (get_component_config tier c) = true
       else get_component_config tier c = .error (unknownComponentMsg c))
    else get_component_config tier c = .error (unknownTierMsg tier) := by
  by_cases ht : tier ∈ validTiers
  · rw [if_pos ht]
    have htier : tier = "high_level" ∨ tier = "detailed" ∨ tier = "production_ready" := by
      simpa [validTiers, DETAIL_LEVEL_CONFIGS] using ht
    by_cases hc : c ∈ tierConfigKeys
    · rw [if_pos hc]
      have hc5 : c = "description" ∨ c = "database" ∨ c = "api" ∨
          c = "frontend" ∨ c = "deployment" := by
        simpa [tierConfigKeys] using hc
      rcases htier with rfl | rfl | rfl <;>
        rcases hc5 with rfl | rfl | rfl | rfl | rfl <;> decide
    · rw [if_neg hc]
      have hcne : ¬c = "description" ∧ ¬c = "database" ∧ ¬c = "api" ∧
          ¬c = "frontend" ∧ ¬c = "deployment" := by
        simpa [tierConfigKeys, not_or] using hc
      obtain ⟨n1, n2, n3, n4, n5⟩ := hcne
      rcases htier with rfl | rfl | rfl <;>
        simp [get_component_config, get_detail_config, DETAIL_LEVEL_CONFIGS,
          List.lookup, Bool.beq_eq_decide_eq, n1, n2, n3, n4, n5]
  · rw [if_neg ht]
    have hne : ¬tier = "high_level" ∧ ¬tier = "detailed" ∧ ¬tier = "production_ready" := by
      simpa [validTiers, DETAIL_LEVEL_CONFIGS, not_or] using ht
    obtain ⟨h1, h2, h3⟩ := hne
    simp [get_component_config, get_detail_config, DETAIL_LEVEL_CONFIGS,
      List.lookup, Bool.beq_eq_decide_eq, h1, h2, h3]


/-- C3: in every run in which stage `k` (1 ≤ k ≤ 5) fails, exactly one
update with status "error" is emitted, every emitted update belongs to one
of the first `k` stages or is the "Error" update (so no updates for stages
`k+1..5` are emitted), the error update is the last one, and no complete
`TechnicalBlueprint` is produced — neither as an update payload nor as the
result of the run. -/
theorem failed_run_event_sequence (g : BlueprintGenerator) (env : StageEnv)
    (ui : UserInput) (k : Nat) (e : String) (h : failsAt env k e) :
    ((emitted g env ui).countP (fun u => u.status == "error")) = 1 ∧
    (∀ u ∈ emitted g env ui, u.phase ∈ PHASES.take k ∨ u.phase = "Error") ∧
    ((emitted g env ui).getLast?.map (fun u => u.status) = some "error") ∧
    (∀ u ∈ emitted g env ui, ∀ b, u.data ≠ some (.blueprint b)) ∧
    (∀ b, runResult g env ui ≠ .ok b) := by
  rcases k with _ | _ | _ | _ | _ | _ | n
  · exact h.elim
  · simp only [failsAt] at h
    refine ⟨?_, ?_, ?_, ?_, ?_⟩ <;>
      simp [emitted, runResult, generate_blueprint_stream, h, gdc_value,
        create_update, fpi_requirements, fpi_error, StreamingHandler.reset,
        PHASES, PHASES_length]
  · obtain ⟨⟨r, hr⟩, he⟩ := h
    refine ⟨?_, ?_, ?_, ?_, ?_⟩ <;>
      simp [emitted, runResult, generate_blueprint_stream, hr, he, gdc_value,
        gcc_database, create_update, fpi_requirements, fpi_database, fpi_error,
        StreamingHandler.reset, PHASES, PHASES_length]
  · obtain ⟨⟨r, hr⟩, ⟨d, hd⟩, he⟩ := h
    refine ⟨?_, ?_, ?_, ?_, ?_⟩ <;>
      simp [emitted, runResult, generate_blueprint_stream, hr, hd, he, gdc_value,
        gcc_database, gcc_api, create_update, fpi_requirements, fpi_database,
        fpi_api, fpi_error, StreamingHandler.reset, PHASES, PHASES_length]
  · obtain ⟨⟨r, hr⟩, ⟨d, hd⟩, ⟨a, ha⟩, he⟩ := h
    refine ⟨?_, ?_, ?_, ?_, ?_⟩ <;>
      simp [emitted, runResult, generate_blueprint_stream, hr, hd, ha, he,
        gdc_value, gcc_database, gcc_api, gcc_frontend, create_update,
        fpi_requirements, fpi_database, fpi_api, fpi_frontend, fpi_error,
        StreamingHandler.reset, PHASES, PHASES_length]
  · obtain ⟨⟨r, hr⟩, ⟨d, hd⟩, ⟨a, ha⟩, ⟨f, hf⟩, he⟩ := h
    refine ⟨?_, ?_, ?_, ?_, ?_⟩ <;>
      simp [emitted, runResult, generate_blueprint_stream, hr, hd, ha, hf, he,
        gdc_value, gcc_database, gcc_api, gcc_frontend, gcc_deployment,
        create_update, fpi_requirements, fpi_database, fpi_api, fpi_frontend,
        fpi_deployment, fpi_error, StreamingHandler.reset, PHASES, PHASES_length]
  · exact h.elim


/-- Witness for C3: the failed-run theorem applied at a concrete run whose
Database Schema stage fails. -/
theorem failed_run_event_sequence_witness :
    failsAt sampleEnvFail2 2 "model timeout" ∧
    (((emitted sampleGenerator sampleEnvFail2 sampleUserInput).countP
        (fun u => u.status == "error")) = 1 ∧
      (∀ u ∈ emitted sampleGenerator sampleEnvFail2 sampleUserInput,
        u.phase ∈ PHASES.take 2 ∨ u.phase = "Error") ∧
      ((emitted sampleGenerator sampleEnvFail2 sampleUserInput).getLast?.map
        (fun u => u.status) = some "error") ∧
      (∀ u ∈ emitted sampleGenerator sampleEnvFail2 sampleUserInput,
        ∀ b, u.data ≠ some (.blueprint b)) ∧
      (∀ b, runResult sampleGenerator sampleEnvFail2 sampleUserInput ≠ .ok b)) :=
  ⟨⟨⟨sampleRequirements, rfl⟩, rfl⟩,
    failed_run_event_sequence sampleGenerator sampleEnvFail2 sampleUserInput
      2 "model timeout" ⟨⟨sampleRequirements, rfl⟩, rfl⟩⟩

end ArchitectBlueprint
